import Mathlib

set_option maxRecDepth 2048

/-!
Verification development for the ResourceScout request-routing and
response-assembly pipeline (src/service.py, src/core/llm.py,
src/core/retrieval.py).

The Python code is shallowly embedded:
* pure functions become Lean functions;
* Python exceptions become `Except PyErr`; a `try/except` block becomes a
  `match` on the `Except` value;
* external collaborators (the Gemini SDK `generate_content` calls, the
  `json.loads` parser, `YoutubeSearch` and `DDGS().text`) are modelled as
  oracle functions collected in the `Oracles` structure.  Theorems quantify
  over oracles; counterexamples and witnesses instantiate them concretely;
* parsed JSON values (the output of `json.loads`) are modelled by `JValue`;
  Python dynamic attribute/argument errors (`.get` on a non-dict,
  `.lower()` on a non-str, `urllib.parse.quote` on a non-str) become
  `Except.error` values;
* the `st.cache_data` / `st.cache_resource` decorators are pure memoization
  over the argument values and are treated as transparent.
-/

/-- A raised Python exception; `msg` models `str(e)`. -/
structure PyErr where
  msg : String
deriving DecidableEq, Repr

/-- A parsed JSON value (output of `json.loads`).  Numbers are modelled as
integers; none of the embedded code paths treated by the claims depends on
float values. -/
inductive JValue where
  | null : JValue
  | bool : Bool → JValue
  | num : Int → JValue
  | str : String → JValue
  | arr : List JValue → JValue
  | obj : List (String × JValue) → JValue

/-- Python truthiness (`if not data:` etc.) of a parsed JSON value:
`None`, `False`, `0`, `""`, `[]`, `{}` are falsy. -/
def pyTruthy : JValue → Bool
  | .null => false
  | .bool b => b
  | .num n => n != 0
  | .str s => s ≠ ""
  | .arr xs => !xs.isEmpty
  | .obj fs => !fs.isEmpty

mutual

/-- Python `repr` of a parsed JSON value.  The string-escaping rules of
`repr` are simplified (embedded quotes are not escaped); this function only
feeds f-string interpolation of non-string values into opaque oracle inputs
and is not reached by any theorem at a string-valued input. -/
def pyRepr : JValue → String
  | .null => "None"
  | .bool true => "True"
  | .bool false => "False"
  | .num n => toString n
  | .str s => "\x27" ++ s ++ "\x27"
  | .arr xs => "[" ++ pyReprList xs ++ "]"
  | .obj fs => "\x7b" ++ pyReprFields fs ++ "\x7d"

def pyReprList : List JValue → String
  | [] => ""
  | [x] => pyRepr x
  | x :: xs => pyRepr x ++ ", " ++ pyReprList xs

def pyReprFields : List (String × JValue) → String
  | [] => ""
  | [(k, v)] => "\x27" ++ k ++ "\x27: " ++ pyRepr v
  | (k, v) :: fs => "\x27" ++ k ++ "\x27: " ++ pyRepr v ++ ", " ++ pyReprFields fs

end

/-- Python `str()` of a parsed JSON value (used by f-string interpolation). -/
def pyStr : JValue → String
  | .str s => s
  | v => pyRepr v

/-- Python `d.get(key, dflt)` restricted to dict receivers (total variant):
for an object, the stored value if the key is present (even if the stored
value is `null`), else the default; callers guard the non-dict case. -/
def pyGetD (v : JValue) (key : String) (dflt : JValue) : JValue :=
  match v with
  | .obj fields => (fields.lookup key).getD dflt
  | _ => dflt

/-- Python `d.get(key, dflt)`: an `AttributeError` is raised when the
receiver is not a dict (e.g. `json.loads` produced a list or a scalar).
`json.loads` keeps the last of duplicate keys while `List.lookup` finds the
first; the model assumes parsed objects carry distinct keys. -/
def pyGet (v : JValue) (key : String) (dflt : JValue) : Except PyErr JValue :=
  match v with
  | .obj fields => .ok ((fields.lookup key).getD dflt)
  | _ => .error ⟨"AttributeError: object has no attribute get"⟩

/-- Python `s.lower()` (ASCII case folding) on a dynamic value:
an `AttributeError` is raised when the receiver is not a str. -/
def pyLower (v : JValue) : Except PyErr String :=
  match v with
  | .str s => .ok (s.toList.map Char.toLower).asString
  | _ => .error ⟨"AttributeError: object has no attribute lower"⟩

/-- The characters of Python `str.split(sep)` for a non-empty separator:
left-to-right, non-overlapping.  `fuel` bounds the recursion (any value
larger than the input length is exact); `acc` is the reversed current
segment. -/
def chSplitF (sep : List Char) : Nat → List Char → List Char → List (List Char)
  | 0, acc, l => [acc.reverse ++ l]
  | _ + 1, acc, [] => [acc.reverse]
  | fuel + 1, acc, c :: rest =>
    if sep.isPrefixOf (c :: rest) then
      acc.reverse :: chSplitF sep fuel [] (List.drop (sep.length - 1) rest)
    else chSplitF sep fuel (c :: acc) rest

/-- Python `hay.split(sep)` for a non-empty separator (`sep` is always the
non-empty marker literal at the call sites; Python raises on an empty
separator, which is modelled as the whole-string segment). -/
def pySplit (hay sep : String) : List String :=
  if sep.toList.isEmpty then [hay]
  else (chSplitF sep.toList (hay.toList.length + 1) [] hay.toList).map List.asString

/-- Python `s.replace(old, new)` (all occurrences) for a non-empty `old`:
equivalently, join the split segments with `new`. -/
def pyReplace (s old new : String) : String :=
  String.intercalate new (pySplit s old)

/-- Python `s.strip()`: drop whitespace from both ends (ASCII whitespace;
the exotic extra whitespace code points Python also strips do not occur in
any input treated here). -/
def pyStrip (s : String) : String :=
  ((s.toList.dropWhile Char.isWhitespace).reverse.dropWhile Char.isWhitespace).reverse.asString

/-- Python `s[:n]` (character slicing from the start). -/
def pyTake (s : String) (n : Nat) : String :=
  (s.toList.take n).asString

/-- Python `needle in hay` for strings (substring containment).  For a
non-empty needle, the split on the needle has at least two segments exactly
when the needle occurs in the hay, which is the characterization the
marker-splitting route consumes directly. -/
def pyIn (needle hay : String) : Bool :=
  (pySplit hay needle).length ≥ 2

/-- Python `data.get(...) == "chat"`-style comparison of a dynamic value
with a string literal: equal only when the value is that very string. -/
def jeqStr (v : JValue) (s : String) : Bool :=
  match v with
  | .str t => t = s
  | _ => false

-- ==========================================================================
-- urllib.parse.quote (src/service.py line 47)
-- ==========================================================================

/-- Uppercase hex digit, as used by `urllib.parse.quote`. -/
def hexChar (n : Nat) : Char :=
  if n < 10 then Char.ofNat (48 + n) else Char.ofNat (55 + n)

/-- Percent-encoding of one byte, e.g. `0x20 ↦ "%20"`. -/
def quoteByte (b : UInt8) : String :=
  ⟨['%', hexChar (b.toNat / 16), hexChar (b.toNat % 16)]⟩

/-- Bytes `urllib.parse.quote` leaves unescaped: ASCII letters, digits,
`_ . - ~` and the default `safe` character `/`. -/
def quoteSafeByte (b : UInt8) : Bool :=
  (65 ≤ b.toNat && b.toNat ≤ 90) || (97 ≤ b.toNat && b.toNat ≤ 122) ||
  (48 ≤ b.toNat && b.toNat ≤ 57) ||
  (b.toNat == 95) || (b.toNat == 46) || (b.toNat == 45) ||
  (b.toNat == 126) || (b.toNat == 47)

/-- `urllib.parse.quote(s)`: UTF-8 encode, keep safe bytes, percent-escape
the rest. -/
def urlquote (s : String) : String :=
  String.join ((List.flatten (s.toList.map String.utf8EncodeChar)).map fun b =>
    if quoteSafeByte b then ⟨[Char.ofNat b.toNat]⟩ else quoteByte b)

-- ==========================================================================
-- src/core/retrieval.py
-- ==========================================================================

/-- retrieval.py `is_english`: `text.encode('ascii')` succeeds exactly when
every code point is ≤ 127. -/
def is_english (text : String) : Bool :=
  text.toList.all fun c => c.toNat ≤ 127

/-- retrieval.py `TRUSTED_SITES` (lines 18-35). -/
def TRUSTED_SITES : List (String × List String) :=
  [("cs", ["geeksforgeeks.org", "w3schools.com", "freecodecamp.org",
           "stackoverflow.com", "realpython.com", "medium.com", "tutorialspoint.com"]),
   ("math", ["khanacademy.org", "wolfram.com", "brilliant.org",
             "libretexts.org", "tutorial.math.lamar.edu"]),
   ("physics", ["physicsclassroom.com", "hyperphysics.phy-astr.gsu.edu",
                "britannica.com", "nasa.gov", "cern.ch"]),
   ("general", ["britannica.com", "bbc.com", "nytimes.com", "investopedia.com"])]

/-- `TRUSTED_SITES["general"]` (the fallback argument of the `.get` on
line 76); the key is present, so the `getD []` default is never taken. -/
def TRUSTED_GENERAL : List String :=
  (TRUSTED_SITES.lookup "general").getD []

/-- One raw entry of `YoutubeSearch(...).to_dict()`, restricted to the
fields the code reads (`id`, `title`, `thumbnails`). -/
structure YtRaw where
  id : String
  title : String
  thumbnails : List String
deriving DecidableEq, Repr

/-- One converted video record `{url, title, thumb}`. -/
structure Video where
  url : String
  title : String
  thumb : String
deriving DecidableEq, Repr

/-- One raw result of `DDGS().text(...)`, restricted to the fields the code
reads (`title`, `href`). -/
structure DDGResult where
  title : String
  href : String
deriving DecidableEq, Repr

/-- One article record `{title, link}`. -/
structure Article where
  title : String
  link : String
deriving DecidableEq, Repr

/-- The conversion loop of `search_youtube` (retrieval.py lines 62-67):
`r['thumbnails'][0]` raises `IndexError` on an entry with no thumbnails;
the surrounding `except: pass` then returns the entries appended so far,
so conversion stops at the first such entry. -/
def ytBuild : List YtRaw → List Video
  | [] => []
  | r :: rs =>
    match r.thumbnails with
    | [] => []
    | t :: _ =>
      { url := "https://www.youtube.com/watch?v=" ++ r.id,
        title := r.title, thumb := t } :: ytBuild rs

/-- retrieval.py `search_youtube` (lines 57-70): the whole body sits in a
`try/except Exception: pass`, so a provider failure yields `[]` and no
exception ever escapes (hence the plain, non-`Except` return type). -/
def search_youtube (yt : JValue → Nat → Except PyErr (List YtRaw))
    (query : JValue) (max_results : Nat := 2) : List Video :=
  match yt query max_results with
  | .error _ => []
  | .ok results => ytBuild results

/-- The shared result-filtering loop of both phases of `search_web`
(retrieval.py lines 90-93 and 107-110): keep results with a pure-ASCII
title, as `{title, link}` records. -/
def ddgFilter (results : List DDGResult) : List Article :=
  (results.filter fun r => is_english r.title).map fun r =>
    { title := r.title, link := r.href }

/-- retrieval.py line 76: the local `trusted_domains`, looked up by the
(already lowered) category with the `"general"` list as the `.get`
fallback. -/
def trusted_domains (catL : String) : List String :=
  (TRUSTED_SITES.lookup catL).getD TRUSTED_GENERAL

/-- retrieval.py line 79: the local `site_string`, a disjunctive site
filter over at most the first 4 trusted domains. -/
def site_string (catL : String) : String :=
  " OR ".intercalate (((trusted_domains catL).take 4).map fun d => "site:" ++ d)

/-- retrieval.py line 80: the local `smart_query` (an f-string, so the raw
query value is `str()`-ed). -/
def smart_query (query : JValue) (catL : String) : String :=
  pyStr query ++ " (" ++ site_string catL ++ ")"

/-- retrieval.py "Strategy A: Strict Academic Search" (lines 84-99): one
site-filtered search, region `us-en`, up to 4 results, ASCII-title filter;
a provider error is caught on line 98 and yields `[]`. -/
def phaseA (ddg : JValue → String → Nat → Except PyErr (List DDGResult))
    (query : JValue) (catL : String) : List Article :=
  match ddg (.str (smart_query query catL)) "us-en" 4 with
  | .error _ => []
  | .ok results => ddgFilter results

/-- retrieval.py "Strategy B: General Fallback" (lines 101-113): one
unrestricted search on the raw query, region `us-en`, up to 5 results, the
same ASCII-title filter; a provider error is caught on line 112 and yields
`[]`. -/
def phaseB (ddg : JValue → String → Nat → Except PyErr (List DDGResult))
    (query : JValue) : List Article :=
  match ddg query "us-en" 5 with
  | .error _ => []
  | .ok results => ddgFilter results

/-- retrieval.py `search_web` body after `category.lower()` (lines 77-115).
`catL` is the already-lowered category string.  If any phase-A result
survives the ASCII filter it is returned at the `if links: return links` on
line 96; otherwise (including a caught phase-A error) the `if not links:`
guard on line 102 runs phase B.  The redundant `if results:` guard on
line 89 does not change the computed value. -/
def search_web_core (ddg : JValue → String → Nat → Except PyErr (List DDGResult))
    (query : JValue) (catL : String) : List Article :=
  let linksA := phaseA ddg query catL
  if linksA.isEmpty then phaseB ddg query
  else linksA

/-- retrieval.py `search_web` (lines 72-115): `category.lower()` on line 76
is the only statement outside a `try` block, so a non-str category raises
and everything after it is `search_web_core`. -/
def search_web (ddg : JValue → String → Nat → Except PyErr (List DDGResult))
    (query category : JValue) : Except PyErr (List Article) :=
  (pyLower category).map fun catL => search_web_core ddg query catL

-- ==========================================================================
-- src/core/llm.py
-- ==========================================================================

/-- llm.py `ResourceResult` (lines 24-35).  Field values flow in from
parsed JSON without runtime type checks (the dataclass does not validate),
so `explanation`, `category` and `book` are dynamic values; `book` defaults
to `None`, `videos`/`articles` default to `[]`. -/
structure ResourceResult where
  explanation : JValue
  category : JValue := .str "general"
  book : JValue := .null
  videos : List Video := []
  articles : List Article := []

/-- One response object of `model.generate_content`; accessing `.text` can
itself raise (modelled as the stored `Except`). -/
structure Resp where
  text : Except PyErr String

/-- The quota-error test of `_generate_with_retry` (llm.py line 64):
`"429" in str(e) or "Quota" in str(e)`. -/
def isQuotaErr (e : PyErr) : Bool :=
  pyIn "429" e.msg || pyIn "Quota" e.msg

/-- The `for attempt in range(retries)` loop of `_generate_with_retry`
(llm.py lines 59-71), iterating over the explicit index list.  `att i` is
the outcome of the i-th `model.generate_content(prompt)` call.  The first
component is the returned value (`.ok none` models the unreachable
`return None` after the loop), the second the list of `time.sleep`
durations `(attempt + 1) * 5` performed, in order. -/
def retryGo (att : Nat → Except PyErr α) (retries : Nat) :
    List Nat → Except PyErr (Option α) × List Nat
  | [] => (.ok none, [])
  | i :: rest =>
    match att i with
    | .ok r => (.ok (some r), [])
    | .error e =>
      if isQuotaErr e && decide (i < retries - 1) then
        let res := retryGo att retries rest
        (res.1, (i + 1) * 5 :: res.2)
      else (.error e, [])

/-- llm.py `_generate_with_retry` (lines 57-72), with its wait trace. -/
def generate_with_retry (att : Nat → Except PyErr α) (retries : Nat := 3) :
    Except PyErr (Option α) × List Nat :=
  retryGo att retries (List.range retries)

/-- The oracle bundle for all external collaborators of the pipeline:
per-prompt, per-attempt outcomes of the two Gemini models, the `json.loads`
parser (a fixed but unknown pure function), and the two search providers. -/
structure Oracles where
  textAttempt : String → Nat → Except PyErr Resp
  jsonAttempt : String → Nat → Except PyErr Resp
  parseJson : String → Except PyErr JValue
  yt : JValue → Nat → Except PyErr (List YtRaw)
  ddg : JValue → String → Nat → Except PyErr (List DDGResult)

/-- The f-string prompt of `analyze_query` (llm.py lines 81-103), with the
source's triple-quoted-string indentation. -/
def analyzePrompt (query context : String) : String :=
  "\n        Role: ResourceScout, a helpful and encouraging academic research assistant.\n        Query: " ++ query ++
  "\n        Context: " ++ pyTake context 50000 ++
  "\n        \n        Instructions:\n        1. If the user input is a greeting (hi, hello), gratitude (thanks), or small talk:\n           - Set \"category\" to \"chat\".\n           - Write a warm, friendly response in \"explanation\" (e.g., \"You\x27re welcome! Happy to help you learn.\").\n           - Set other fields to null.\n           \n        2. If the user input is an educational question:\n           - Set \"category\" to \"cs\", \"math\", \"science\", or \"general\".\n           - Generate the research queries as usual.\n        \n        Return JSON: \x7b\n            \"category\": \"cs|math|science|general|chat\",\n            \"explanation\": \"Detailed academic summary (approx 200 words) OR friendly chat response.\",\n            \"book\": \"Standard textbook title (or null if chat).\",\n            \"youtube_query\": \"Search query for video (or null if chat).\",\n            \"web_query\": \"Search query for articles (or null if chat).\"\n        \x7d\n        "

/-- llm.py `analyze_query` (lines 74-110): `None` when the api key is falsy
(empty); otherwise the retried JSON-model call followed by `json.loads`,
with every exception (raised attempt, `.text` access, `res` being `None`,
parse failure) caught on line 108 and converted to `None`. -/
def analyze_query (O : Oracles) (apiKey query context : String) : Option JValue :=
  if apiKey = "" then none
  else
    match generate_with_retry (O.jsonAttempt (analyzePrompt query context)) 3 with
    | (.error _, _) => none
    | (.ok none, _) => none
    | (.ok (some r), _) =>
      match r.text with
      | .error _ => none
      | .ok txt =>
        match O.parseJson txt with
        | .error _ => none
        | .ok v => some v

/-- llm.py `generate_text` (lines 112-123): `"API Key missing."` for a
falsy api key; otherwise the retried text-model call, with any exception
converted to `"Generation failed: " ++ str(e)` on line 123.  The
`(.ok none, _)` branch models `res.text` on `res = None` (unreachable for
`retries = 3`, see `retryGo`). -/
def generate_text (O : Oracles) (apiKey prompt : String) : String :=
  if apiKey = "" then "API Key missing."
  else
    match generate_with_retry (O.textAttempt prompt) 3 with
    | (.error e, _) => "Generation failed: " ++ e.msg
    | (.ok none, _) => "Generation failed: AttributeError on None.text"
    | (.ok (some r), _) =>
      match r.text with
      | .ok t => t
      | .error e => "Generation failed: " ++ e.msg

-- ==========================================================================
-- src/service.py
-- ==========================================================================

/-- service.py line 13. -/
def CMD_SUMMARIZE : String := "Summarize the uploaded documents."

/-- service.py line 14. -/
def CMD_QUIZ : String := "Generate a quiz based on the context."

/-- service.py `cached_video_search` (lines 20-22): memoized
`retrieval.search_youtube(query)` at the default `max_results = 2`;
`st.cache_data` is value-keyed and treated as transparent. -/
def cached_video_search (O : Oracles) (query : JValue) : List Video :=
  search_youtube O.yt query 2

/-- service.py `cached_web_search` (lines 24-26): memoized
`retrieval.search_web(query, category)`. -/
def cached_web_search (O : Oracles) (query category : JValue) :
    Except PyErr (List Article) :=
  search_web O.ddg query category

/-- service.py `ensure_links` (lines 44-58) for a string topic (no
exception possible): on an empty article list, synthesize the two fixed
search links around the URL-escaped topic; otherwise pass through. -/
def ensure_links (topic : String) (current_links : List Article) : List Article :=
  if current_links.isEmpty then
    let safe_topic := urlquote topic
    [{ title := "📖 Learn \x27" ++ topic ++ "\x27 on Khan Academy",
       link := "https://www.khanacademy.org/search?page_search_query=" ++ safe_topic },
     { title := "🎓 Academic Papers: " ++ topic,
       link := "https://scholar.google.com/scholar?q=" ++ safe_topic }]
  else current_links

/-- service.py `ensure_links` on a dynamic topic (route 5 passes the raw
`web_query` value): `urllib.parse.quote(topic)` on line 47 raises
`TypeError` for a non-str topic, but only when the empty-articles branch is
taken, since the non-empty branch returns before `quote` runs. -/
def ensure_links_j (topic : JValue) (current_links : List Article) :
    Except PyErr (List Article) :=
  match topic with
  | .str t => .ok (ensure_links t current_links)
  | _ =>
    if current_links.isEmpty then .error ⟨"TypeError: quote expected str"⟩
    else .ok current_links

/-- service.py line 78: the local `clean_response`, normalizing the
bold-markup marker variant. -/
def clean_of (full_response : String) : String :=
  pyReplace full_response "**SEARCH_QUERY:**" "SEARCH_QUERY:"

/-- service.py lines 81-87, the local `search_topic`: Python assigns the
fallback `"Computer Science Core"` and overwrites it with
`parts[1].strip()` inside `if "SEARCH_QUERY:" in clean_response:`;
`parts[1]` is the split segment between the first and second marker
occurrences (it exists, since a string containing the marker splits into
≥ 2 segments). -/
def syllabus_topic (full_response : String) : String :=
  let clean := clean_of full_response
  if pyIn "SEARCH_QUERY:" clean then pyStrip ((pySplit clean "SEARCH_QUERY:").getD 1 "")
  else "Computer Science Core"

/-- service.py lines 82-86, the local `summary_text`: `parts[0].strip()`
(the text before the first marker) when the marker occurs, otherwise the
whole unnormalized generated text. -/
def syllabus_summary (full_response : String) : String :=
  let clean := clean_of full_response
  if pyIn "SEARCH_QUERY:" clean then pyStrip ((pySplit clean "SEARCH_QUERY:").getD 0 "")
  else full_response

/-- The f-string prompt of route 1 (service.py lines 62-75), with the
source's triple-quoted-string indentation. -/
def summarizePrompt (context : String) : String :=
  "\n        Analyze the document and extract the Technical Syllabus.\n        Ignore admin details. Focus on core modules.\n        \n        Format:\n        1. List 3-5 key technical modules.\n        2. Briefly explain sub-topics.\n        \n        CRITICAL: On the very last line, output the search tag like this:\n        SEARCH_QUERY: <Insert the hardest technical topic here>\n        \n        Document Context:\n        " ++ pyTake context 20000 ++ "\n        "

/-- service.py route 4, the universal fallback (lines 111-125), reached
both when `analyze_query` returns `None` and when it returns a falsy value:
free-form generation over the bounded context prefix plus the raw query,
then both searches on the raw query with category `"general"`, then
fail-safe injection. -/
def fallbackRoute (O : Oracles) (query context apiKey : String) :
    Except PyErr ResourceResult :=
  let fallback_text :=
    generate_text O apiKey ("Context: " ++ pyTake context 10000 ++ "\n\nUser Request: " ++ query)
  let videos := cached_video_search O (.str query)
  match cached_web_search O (.str query) (.str "general") with
  | .error e => .error e
  | .ok raw_articles =>
    .ok { explanation := .str fallback_text, category := .str "general",
          videos := videos, articles := ensure_links query raw_articles }

/-- service.py routes 5 ("chat bypass" and "standard success flow", lines
127-153), reached with the truthy `analyze_query` result `data`.  Each
`data.get(...)` is an `AttributeError` when `data` is not a dict.  The
source evaluates `data.get("category", "general")` twice (lines 144 and
149) with the same value; the model names it once (`catD`). -/
def route5 (O : Oracles) (query : String) (data : JValue) :
    Except PyErr ResourceResult := do
  let cat0 ← pyGet data "category" .null
  if jeqStr cat0 "chat" then do
    let expl ← pyGet data "explanation" (.str "Hello!")
    pure { explanation := expl, category := .str "chat" }
  else do
    let yq ← pyGet data "youtube_query" .null
    let yt_query := if pyTruthy yq then yq else .str query
    let videos := cached_video_search O yt_query
    let wq ← pyGet data "web_query" .null
    let web_query := if pyTruthy wq then wq else .str query
    let catD ← pyGet data "category" (.str "general")
    let raw_articles ← cached_web_search O web_query catD
    let articles ← ensure_links_j web_query raw_articles
    let expl ← pyGet data "explanation" (.str "")
    let book ← pyGet data "book" .null
    pure { explanation := expl, category := catD, book := book,
           videos := videos, articles := articles }

/-- service.py `handle_request` (lines 36-153).  Routes in source order:
summarize sentinel, quiz sentinel, structured analysis with fallback on a
falsy result, chat bypass, standard success flow.  In route 1 the Python
code assigns the fallback topic/summary and overwrites them inside the
`if "SEARCH_QUERY:" in clean_response:` branch; this is expressed as the
equivalent conditionals over the same `splitOn` segments (`parts[0]`,
`parts[1]`, which exist since the split of a string containing the marker
has ≥ 2 segments).  In route 5 `data.get("category", "general")` is
evaluated twice in the source (lines 144 and 149) with the same value; the
model names it once.  Python `.strip()` is modelled by `String.trim`
(ASCII whitespace). -/
def handle_request (O : Oracles) (query context apiKey : String) :
    Except PyErr ResourceResult :=
  if query = CMD_SUMMARIZE then
    let full_response := generate_text O apiKey (summarizePrompt context)
    let search_topic := syllabus_topic full_response
    let summary_text := syllabus_summary full_response
    let videos := cached_video_search O (.str search_topic)
    match cached_web_search O (.str search_topic) (.str "cs") with
    | .error e => .error e
    | .ok raw_articles =>
      .ok { explanation := .str summary_text, category := .str "Syllabus",
            videos := videos, articles := ensure_links search_topic raw_articles }
  else if query = CMD_QUIZ then
    let text :=
      generate_text O apiKey ("Create a 3-question quiz based on:\n" ++ pyTake context 5000)
    .ok { explanation := .str text, category := .str "Quiz" }
  else
    match analyze_query O apiKey query context with
    | none => fallbackRoute O query context apiKey
    | some data =>
      if pyTruthy data then route5 O query data
      else fallbackRoute O query context apiKey

-- ==========================================================================
-- Claim-side definitions (readings of the spec text, for comparison with
-- the source-derived functions above)
-- ==========================================================================

/-- Reading of the claim "the search topic is the text after the marker":
everything following the first occurrence of `SEARCH_QUERY:` in the
(normalized) generated text, stripped.  To be compared with the source,
which takes only `parts[1]` of the split, i.e. the segment before the
*second* occurrence. -/
def specTopicAfterMarker (clean : String) : String :=
  pyStrip (String.intercalate "SEARCH_QUERY:" ((pySplit clean "SEARCH_QUERY:").drop 1))

/-- Is the dynamic value a str? -/
def stringValued : JValue → Bool
  | .str _ => true
  | _ => false

/-- Well-typedness of the structured-generation outcome, as the amended C1
requires it: a truthy result must be a JSON object whose `category` (after
the `"general"` default) is a str and whose `web_query`, when truthy, is a
str.  `None` and falsy results are always safe (they take the fallback
route). -/
def goodStructured : Option JValue → Bool
  | none => true
  | some v =>
    !pyTruthy v ||
    (match v with
     | .obj _ =>
       stringValued (pyGetD v "category" (.str "general")) &&
       (!pyTruthy (pyGetD v "web_query" .null) || stringValued (pyGetD v "web_query" .null))
     | _ => false)

-- ==========================================================================
-- Concrete oracle instances for witnesses and counterexamples
-- ==========================================================================

/-- A benign collaborator: both models succeed with fixed text, the parser
fails, both searches return nothing. -/
def O_base : Oracles :=
  { textAttempt := fun _ _ => .ok ⟨.ok "generated text"⟩,
    jsonAttempt := fun _ _ => .ok ⟨.ok "raw json"⟩,
    parseJson := fun _ => .error ⟨"json decode error"⟩,
    yt := fun _ _ => .ok [],
    ddg := fun _ _ _ => .ok [] }

/-- Collaborator whose structured generation yields a JSON *array*: valid
JSON, successfully parsed, but not a dict. -/
def O_c1 : Oracles :=
  { O_base with parseJson := fun _ => .ok (.arr [.num 1]) }

/-- Collaborator whose structured generation yields a well-typed research
object. -/
def goodObj : JValue :=
  .obj [("category", .str "cs"), ("explanation", .str "an answer"),
        ("book", .null), ("youtube_query", .str "vids"),
        ("web_query", .str "docs")]

def O_good : Oracles :=
  { O_base with parseJson := fun _ => .ok goodObj }

def chatObj : JValue :=
  .obj [("category", .str "chat"), ("explanation", .str "Hey there")]

/-- Collaborator whose structured generation yields a chat object. -/
def O_chat : Oracles :=
  { O_base with parseJson := fun _ => .ok chatObj }

/-- Collaborator whose structured generation raises a non-quota error. -/
def O_jfail : Oracles :=
  { O_base with jsonAttempt := fun _ _ => .error ⟨"network down"⟩ }

/-- Collaborator for the summarize route whose generated syllabus contains
the `SEARCH_QUERY:` marker twice, and whose video provider returns a video
only when queried with the full text after the first marker. -/
def O_c2 : Oracles :=
  { O_base with
    textAttempt := fun _ _ => .ok ⟨.ok "Intro SEARCH_QUERY: B SEARCH_QUERY: C"⟩,
    yt := fun q _ =>
      match q with
      | .str s => if s = "B SEARCH_QUERY: C" then .ok [⟨"vid1", "Title", ["thumb"]⟩] else .ok []
      | _ => .ok [] }

/-- A video provider that always fails. -/
def ytFail : JValue → Nat → Except PyErr (List YtRaw) :=
  fun _ _ => .error ⟨"no network"⟩

/-- Attempt trace: quota errors on attempts 0 and 1, success on attempt 2. -/
def attC4a : Nat → Except PyErr Nat :=
  fun i =>
    if i = 0 then .error ⟨"429 too many requests"⟩
    else if i = 1 then .error ⟨"Quota exceeded"⟩
    else .ok 7

/-- Attempt trace: a non-quota error on every attempt. -/
def attC4b : Nat → Except PyErr Nat :=
  fun _ => .error ⟨"permission denied"⟩

/-- Attempt trace: quota errors on all three attempts. -/
def attC4c : Nat → Except PyErr Nat :=
  fun i =>
    .error (if i = 0 then ⟨"429 a"⟩ else if i = 1 then ⟨"Quota b"⟩ else ⟨"429 final"⟩)

/-- A web-search provider returning one ASCII-titled and one
non-ASCII-titled result on 4-result (phase A) requests, nothing else. -/
def ddgW : JValue → String → Nat → Except PyErr (List DDGResult) :=
  fun _ _ n =>
    if n = 4 then .ok [⟨"Alpha", "http://a"⟩, ⟨"你好", "http://b"⟩]
    else .ok []

-- ==========================================================================
-- Helper lemmas
-- ==========================================================================

theorem exbind_ok {α β : Type} (x : α) (f : α → Except PyErr β) :
    ((Except.ok x : Except PyErr α) >>= f) = f x := rfl

theorem exmap_ok {α β : Type} (f : α → β) (x : α) :
    (Except.ok x : Except PyErr α).map f = .ok (f x) := rfl

theorem ensure_links_ne_nil (topic : String) (l : List Article) :
    ensure_links topic l ≠ [] := by
  unfold ensure_links
  split
  · simp
  · next h =>
    intro hnil
    exact h (by simp [hnil])

theorem ytBuild_length (rs : List YtRaw) : (ytBuild rs).length ≤ rs.length := by
  induction rs with
  | nil => simp [ytBuild]
  | cons r rs ih =>
    unfold ytBuild
    cases r.thumbnails with
    | nil => simp
    | cons t ts =>
      simp only [List.length_cons]
      omega

theorem ddgFilter_english (rs : List DDGResult) :
    ∀ a ∈ ddgFilter rs, is_english a.title = true := by
  intro a ha
  unfold ddgFilter at ha
  simp only [List.mem_map, List.mem_filter] at ha
  obtain ⟨r, ⟨_, hr⟩, rfl⟩ := ha
  exact hr

theorem stringValued_iff (v : JValue) : stringValued v = true ↔ ∃ s, v = .str s := by
  cases v <;> simp [stringValued]

-- ==========================================================================
-- C8: quiz route
-- ==========================================================================

/-- C8: for every context and credentials, a query equal to the quiz
sentinel performs no video or web search and yields category `"Quiz"`,
empty `videos` and `articles`, and an explanation equal to the free-form
generation result of the 3-question-quiz prompt over the first 5,000
characters of the context. -/
theorem C8_quiz_route (O : Oracles) (context apiKey : String) :
    handle_request O CMD_QUIZ context apiKey =
      .ok { explanation := .str (generate_text O apiKey
              ("Create a 3-question quiz based on:\n" ++ pyTake context 5000)),
            category := .str "Quiz", book := .null, videos := [], articles := [] } := by
  rfl

-- ==========================================================================
-- C6: fail-safe link injector
-- ==========================================================================

/-- C6: for every topic string and article sequence, `ensure_links` on an
empty sequence returns exactly the 2 fixed entries (a Khan Academy
domain-search URL and a Google Scholar search URL), each of whose links
contains the URL-escaped topic; on a non-empty sequence it returns the
input unchanged. -/
theorem C6_ensure_links (topic : String) (current : List Article) :
    (current = [] →
      ensure_links topic current =
        [{ title := "📖 Learn \x27" ++ topic ++ "\x27 on Khan Academy",
           link := "https://www.khanacademy.org/search?page_search_query=" ++ urlquote topic },
         { title := "🎓 Academic Papers: " ++ topic,
           link := "https://scholar.google.com/scholar?q=" ++ urlquote topic }] ∧
      (ensure_links topic current).length = 2 ∧
      ∀ a ∈ ensure_links topic current, ∃ pre, a.link = pre ++ urlquote topic) ∧
    (current ≠ [] → ensure_links topic current = current) := by
  constructor
  · intro h
    subst h
    refine ⟨rfl, rfl, ?_⟩
    intro a ha
    simp only [ensure_links, List.isEmpty_nil, if_true, List.mem_cons,
      List.not_mem_nil, or_false] at ha
    rcases ha with rfl | rfl
    · exact ⟨"https://www.khanacademy.org/search?page_search_query=", rfl⟩
    · exact ⟨"https://scholar.google.com/scholar?q=", rfl⟩
  · intro h
    unfold ensure_links
    rw [if_neg]
    simpa [List.isEmpty_iff] using h

/-- C6 witness: instantiation at the topic `"graph theory"` with an empty
and a non-empty article list. -/
theorem C6_ensure_links_w :
    (ensure_links "graph theory" []).length = 2 ∧
    ensure_links "graph theory" [⟨"t", "l"⟩] = [⟨"t", "l"⟩] :=
  ⟨((C6_ensure_links "graph theory" []).1 rfl).2.1,
   (C6_ensure_links "graph theory" [⟨"t", "l"⟩]).2 (by simp)⟩

-- ==========================================================================
-- C9: video search is best-effort
-- ==========================================================================

/-- C9: for every query and max_results, `search_youtube` cannot raise (its
whole body is inside `try/except: pass`, so it is total by construction); a
provider failure yields `[]`; and when the provider honours the requested
cap, at most `max_results` entries are returned.  `cached_video_search` is
the service-layer call at the default `max_results = 2`. -/
theorem C9_search_youtube (yt : JValue → Nat → Except PyErr (List YtRaw))
    (query : JValue) (max_results : Nat) :
    (∀ e, yt query max_results = .error e →
      search_youtube yt query max_results = []) ∧
    (∀ res, yt query max_results = .ok res → res.length ≤ max_results →
      (search_youtube yt query max_results).length ≤ max_results) ∧
    (∀ O : Oracles, cached_video_search O query = search_youtube O.yt query 2) := by
  refine ⟨?_, ?_, fun _ => rfl⟩
  · intro e he
    unfold search_youtube
    rw [he]
  · intro res hres hlen
    unfold search_youtube
    rw [hres]
    exact le_trans (ytBuild_length res) hlen

/-- C9 witness: a failing provider yields `[]`; a one-result provider stays
within the cap of 2. -/
theorem C9_search_youtube_w :
    search_youtube ytFail (.str "cats") 2 = [] ∧
    (search_youtube O_c2.yt (.str "B SEARCH_QUERY: C") 2).length ≤ 2 :=
  ⟨(C9_search_youtube ytFail (.str "cats") 2).1 ⟨"no network"⟩ rfl,
   (C9_search_youtube O_c2.yt (.str "B SEARCH_QUERY: C") 2).2.1
     [⟨"vid1", "Title", ["thumb"]⟩] rfl (by decide)⟩

-- ==========================================================================
-- C4: retry policy of the shared generation helper
-- ==========================================================================

/-- C4: the shared retry helper retries only quota-class errors
(message containing `"429"` or `"Quota"`), up to 3 attempts total, sleeping
`(attempt + 1) * 5` seconds between attempts: a run of quota errors
followed by a success on attempt `N` (1-based) performs exactly `N - 1`
waits `5, 10, ...` and returns the success; a non-quota error on the first
attempt is raised at once with zero waits; quota errors on all three
attempts raise the final error after the two waits. -/
theorem C4_generate_with_retry :
    (∀ (α : Type) (att : Nat → Except PyErr α) (N : Nat) (r : α),
      1 ≤ N → N ≤ 3 →
      (∀ i, i < N - 1 → ∃ e, att i = .error e ∧ isQuotaErr e = true) →
      att (N - 1) = .ok r →
      generate_with_retry att 3 =
        (.ok (some r), (List.range (N - 1)).map fun i => (i + 1) * 5)) ∧
    (∀ (α : Type) (att : Nat → Except PyErr α) (e : PyErr),
      att 0 = .error e → isQuotaErr e = false →
      generate_with_retry att 3 = (.error e, [])) ∧
    (∀ (α : Type) (att : Nat → Except PyErr α) (e0 e1 e2 : PyErr),
      att 0 = .error e0 → att 1 = .error e1 → att 2 = .error e2 →
      isQuotaErr e0 = true → isQuotaErr e1 = true →
      generate_with_retry att 3 = (.error e2, [5, 10])) := by
  have hr3 : List.range 3 = [0, 1, 2] := rfl
  refine ⟨?_, ?_, ?_⟩
  · intro α att N r hN1 hN3 hq hs
    interval_cases N
    · simp only [generate_with_retry, hr3, retryGo, hs]
      rfl
    · obtain ⟨e0, he0, hq0⟩ := hq 0 (by omega)
      simp only [generate_with_retry, hr3, retryGo, he0, hq0, hs]
      rfl
    · obtain ⟨e0, he0, hq0⟩ := hq 0 (by omega)
      obtain ⟨e1, he1, hq1⟩ := hq 1 (by omega)
      simp only [generate_with_retry, hr3, retryGo, he0, hq0, he1, hq1, hs]
      rfl
  · intro α att e h0 hnq
    simp only [generate_with_retry, hr3, retryGo, h0, hnq]
    rfl
  · intro α att e0 e1 e2 h0 h1 h2 hq0 hq1
    simp only [generate_with_retry, hr3, retryGo, h0, hq0, h1, hq1, h2]
    simp

/-- C4 witness: the three scenarios at concrete attempt traces. -/
theorem C4_generate_with_retry_w :
    generate_with_retry attC4a 3 = (.ok (some 7), [5, 10]) ∧
    generate_with_retry attC4b 3 = (.error ⟨"permission denied"⟩, []) ∧
    generate_with_retry attC4c 3 = (.error ⟨"429 final"⟩, [5, 10]) :=
  ⟨C4_generate_with_retry.1 Nat attC4a 3 7 (by omega) (by omega)
      (by
        intro i hi
        interval_cases i
        · exact ⟨⟨"429 too many requests"⟩, rfl, rfl⟩
        · exact ⟨⟨"Quota exceeded"⟩, rfl, rfl⟩)
      rfl,
   C4_generate_with_retry.2.1 Nat attC4b ⟨"permission denied"⟩ rfl rfl,
   C4_generate_with_retry.2.2 Nat attC4c ⟨"429 a"⟩ ⟨"Quota b"⟩ ⟨"429 final"⟩
     rfl rfl rfl rfl rfl⟩

-- ==========================================================================
-- C5: two-phase web search
-- ==========================================================================

/-- C5: for every query and category string, `search_web` never raises (its
value is `.ok` of the pure two-phase computation on the lowered category);
the phase-A site filter draws on at most 4 allowlisted domains and phase A
is one `us-en` search with up to 4 results; a non-empty filtered phase-A
result is returned immediately (no phase B); phase B (same region pin, up
to 5 results, same filter) runs exactly when phase A yields zero surviving
results; a provider error in either phase is that phase's empty result; and
every returned entry's title passes `is_english`. -/
theorem C5_search_web (ddg : JValue → String → Nat → Except PyErr (List DDGResult))
    (query category : String) :
    search_web ddg (.str query) (.str category) =
      .ok (search_web_core ddg (.str query) ((category.toList.map Char.toLower).asString)) ∧
    ((trusted_domains ((category.toList.map Char.toLower).asString)).take 4).length ≤ 4 ∧
    (∀ catL, phaseA ddg (.str query) catL ≠ [] →
      search_web_core ddg (.str query) catL = phaseA ddg (.str query) catL) ∧
    (∀ catL, phaseA ddg (.str query) catL = [] →
      search_web_core ddg (.str query) catL = phaseB ddg (.str query)) ∧
    (∀ catL e, ddg (.str (smart_query (.str query) catL)) "us-en" 4 = .error e →
      phaseA ddg (.str query) catL = []) ∧
    (∀ e, ddg (.str query) "us-en" 5 = .error e → phaseB ddg (.str query) = []) ∧
    (∀ catL, ∀ a ∈ search_web_core ddg (.str query) catL, is_english a.title = true) := by
  refine ⟨rfl, ?_, ?_, ?_, ?_, ?_, ?_⟩
  · simp
  · intro catL h
    unfold search_web_core
    rw [if_neg]
    simpa [List.isEmpty_iff] using h
  · intro catL h
    unfold search_web_core
    rw [if_pos]
    simpa [List.isEmpty_iff] using h
  · intro catL e he
    unfold phaseA
    rw [he]
  · intro e he
    unfold phaseB
    rw [he]
  · intro catL a ha
    simp only [search_web_core] at ha
    split at ha
    · unfold phaseB at ha
      split at ha
      · simp at ha
      · exact ddgFilter_english _ a ha
    · unfold phaseA at ha
      split at ha
      · simp at ha
      · exact ddgFilter_english _ a ha

/-- C5 witness: at a concrete provider one surviving ASCII-titled phase-A
result is returned immediately, the non-ASCII title having been filtered
out. -/
theorem C5_search_web_w :
    search_web ddgW (.str "graphs") (.str "CS") =
      .ok (search_web_core ddgW (.str "graphs") (("CS".toList.map Char.toLower).asString)) ∧
    search_web_core ddgW (.str "graphs") "cs" = phaseA ddgW (.str "graphs") "cs" ∧
    phaseA ddgW (.str "graphs") "cs" = [⟨"Alpha", "http://a"⟩] :=
  ⟨(C5_search_web ddgW "graphs" "CS").1,
   (C5_search_web ddgW "graphs" "CS").2.2.1 "cs" (by decide),
   by decide⟩

-- ==========================================================================
-- C10: allowlist lookup fallback
-- ==========================================================================

/-- C10: the trusted-domain allowlist is looked up by the lowercased
category, falling back to the `"general"` list for any key outside
`cs`, `math`, `physics`, `general`; in particular for `"science"` the
site filter is built from the general allowlist
(britannica.com, bbc.com, nytimes.com, investopedia.com), so the whole
search behaves as it does for `"general"`. -/
theorem C10_trusted_fallback :
    (∀ cat : String, cat ∉ (["cs", "math", "physics", "general"] : List String) →
      trusted_domains cat = ["britannica.com", "bbc.com", "nytimes.com", "investopedia.com"]) ∧
    trusted_domains "science" = ["britannica.com", "bbc.com", "nytimes.com", "investopedia.com"] ∧
    (∀ ddg (q : JValue), search_web_core ddg q "science" = search_web_core ddg q "general") ∧
    (∀ ddg (q c : String), search_web ddg (.str q) (.str c) =
      .ok (search_web_core ddg (.str q) ((c.toList.map Char.toLower).asString))) := by
  refine ⟨?_, by decide, fun ddg q => rfl, fun ddg q c => rfl⟩
  intro cat h
  simp only [List.mem_cons, List.not_mem_nil, or_false, not_or] at h
  obtain ⟨h1, h2, h3, h4⟩ := h
  simp [trusted_domains, TRUSTED_SITES, TRUSTED_GENERAL, List.lookup,
    beq_eq_false_iff_ne.mpr h1, beq_eq_false_iff_ne.mpr h2,
    beq_eq_false_iff_ne.mpr h3, beq_eq_false_iff_ne.mpr h4]

/-- C10 witness: `"science"` is outside the allowlisted keys and falls back
to the general list. -/
theorem C10_trusted_fallback_w :
    "science" ∉ (["cs", "math", "physics", "general"] : List String) ∧
    trusted_domains "science" = ["britannica.com", "bbc.com", "nytimes.com", "investopedia.com"] :=
  ⟨by decide, C10_trusted_fallback.1 "science" (by decide)⟩

-- ==========================================================================
-- C3: universal fallback on null structured generation
-- ==========================================================================

/-- C3: for every non-sentinel query, when `analyze_query` returns null the
fallback path runs: the explanation is free-form generation over
`"Context: " ++ first 10,000 context characters ++ "\n\nUser Request: " ++ query`,
both searches use the raw query (web category `"general"`), the result
category is `"general"`, and the articles list is non-empty via fail-safe
injection even when web search returns nothing. -/
theorem C3_null_fallback (O : Oracles) (query context apiKey : String)
    (h1 : query ≠ CMD_SUMMARIZE) (h2 : query ≠ CMD_QUIZ)
    (hn : analyze_query O apiKey query context = none) :
    handle_request O query context apiKey =
      .ok { explanation := .str (generate_text O apiKey
              ("Context: " ++ pyTake context 10000 ++ "\n\nUser Request: " ++ query)),
            category := .str "general", book := .null,
            videos := cached_video_search O (.str query),
            articles := ensure_links query
              (search_web_core O.ddg (.str query) "general") } ∧
    ensure_links query (search_web_core O.ddg (.str query) "general") ≠ [] := by
  constructor
  · unfold handle_request
    rw [if_neg h1, if_neg h2, hn]
    rfl
  · exact ensure_links_ne_nil _ _


/-- C3 witness: a failing structured backend routes a concrete non-sentinel
query to the fallback, and the injected articles are produced. -/
theorem C3_null_fallback_w :
    analyze_query O_jfail "k" "explain ai" "ctx" = none ∧
    handle_request O_jfail "explain ai" "ctx" "k" =
      .ok { explanation := .str (generate_text O_jfail "k"
              ("Context: " ++ "ctx" ++ "\n\nUser Request: " ++ "explain ai")),
            category := .str "general", book := .null,
            videos := [],
            articles := ensure_links "explain ai"
              (search_web_core O_jfail.ddg (.str "explain ai") "general") } ∧
    ensure_links "explain ai" (search_web_core O_jfail.ddg (.str "explain ai") "general") ≠ [] :=
  ⟨rfl,
   (C3_null_fallback O_jfail "explain ai" "ctx" "k" (by decide) (by decide) rfl).1,
   (C3_null_fallback O_jfail "explain ai" "ctx" "k" (by decide) (by decide) rfl).2⟩

-- ==========================================================================
-- C7: chat bypass
-- ==========================================================================

/-- C7: for every non-sentinel query whose truthy structured result is an
object with `category == "chat"`, `handle_request` short-circuits: no
search output, `videos = []`, `articles = []`, and the explanation is the
structured `explanation` field, defaulting to `"Hello!"` when absent. -/
theorem C7_chat_bypass (O : Oracles) (query context apiKey : String)
    (fs : List (String × JValue))
    (h1 : query ≠ CMD_SUMMARIZE) (h2 : query ≠ CMD_QUIZ)
    (hd : analyze_query O apiKey query context = some (.obj fs))
    (htr : pyTruthy (.obj fs) = true)
    (hcat : jeqStr ((fs.lookup "category").getD .null) "chat" = true) :
    handle_request O query context apiKey =
      .ok { explanation := pyGetD (.obj fs) "explanation" (.str "Hello!"),
            category := .str "chat", book := .null, videos := [], articles := [] } := by
  unfold handle_request
  rw [if_neg h1, if_neg h2, hd]
  simp only [htr, if_true]
  unfold route5
  simp only [pyGet, exbind_ok]
  rw [if_pos hcat]
  rfl

/-- C7 witness: the concrete chat object short-circuits with its own
explanation and empty resource lists. -/
theorem C7_chat_bypass_w :
    analyze_query O_chat "k" "hi" "ctx" = some chatObj ∧
    handle_request O_chat "hi" "ctx" "k" =
      .ok { explanation := .str "Hey there", category := .str "chat",
            book := .null, videos := [], articles := [] } :=
  ⟨rfl,
   C7_chat_bypass O_chat "hi" "ctx" "k"
     [("category", .str "chat"), ("explanation", .str "Hey there")]
     (by decide) (by decide) rfl rfl rfl⟩

-- ==========================================================================
-- C1: no uncaught exception (corrected)
-- ==========================================================================

theorem route5_ok (O : Oracles) (query : String) (fs : List (String × JValue))
    (hcat : stringValued (pyGetD (.obj fs) "category" (.str "general")) = true)
    (hwq : pyTruthy (pyGetD (.obj fs) "web_query" .null) = false ∨
           stringValued (pyGetD (.obj fs) "web_query" .null) = true) :
    ∃ r, route5 O query (.obj fs) = .ok r := by
  obtain ⟨cs, hcs⟩ := (stringValued_iff _).mp hcat
  simp only [pyGetD] at hcs
  unfold route5
  simp only [pyGet, exbind_ok]
  split
  · exact ⟨_, rfl⟩
  · simp only [pyGet, exbind_ok, hcs]
    simp only [cached_web_search, search_web, exbind_ok]
    rcases hwq with hwf | hws
    · simp only [pyGetD] at hwf
      simp only [hwf, Bool.false_eq_true, if_false]
      exact ⟨_, rfl⟩
    · obtain ⟨ws, hws'⟩ := (stringValued_iff _).mp hws
      simp only [pyGetD] at hws'
      simp only [hws']
      by_cases ht : pyTruthy (.str ws) = true
      · simp only [ht, if_true]
        exact ⟨_, rfl⟩
      · simp only [ht, if_false]
        exact ⟨_, rfl⟩

/-- C1 counterexample: the claim quantifies over arbitrary structured-JSON
collaborator results, but when structured generation returns the valid JSON
array `[1]` (successfully parsed, truthy, not a dict), `handle_request`
evaluates `data.get("category")` on a list and the `AttributeError`
escapes uncaught as an internal exception. -/
theorem C1_cex :
    handle_request O_c1 "q" "" "k" =
      .error ⟨"AttributeError: object has no attribute get"⟩ := by
  rfl

/-- C1 (corrected): `handle_request` returns a well-formed `ResourceResult`
(and lets no internal exception escape) for every query, context, api key
and collaborator behavior whose structured-generation outcome is
well-typed in the sense of `goodStructured`: null or falsy results are
always safe, and a truthy result must be a JSON object whose `category`
value (after the `"general"` default) is a string and whose `web_query`
value, when truthy, is a string.  (The `videos`/`articles` fields of the
returned record are lists and `explanation` is populated by construction
of `ResourceResult`.) -/
theorem C1_no_uncaught (O : Oracles) (query context apiKey : String)
    (hgood : goodStructured (analyze_query O apiKey query context) = true) :
    ∃ r, handle_request O query context apiKey = .ok r := by
  unfold handle_request
  by_cases h1 : query = CMD_SUMMARIZE
  · rw [if_pos h1]
    exact ⟨_, rfl⟩
  rw [if_neg h1]
  by_cases h2 : query = CMD_QUIZ
  · rw [if_pos h2]
    exact ⟨_, rfl⟩
  rw [if_neg h2]
  cases hd : analyze_query O apiKey query context with
  | none => exact ⟨_, rfl⟩
  | some v =>
    rw [hd] at hgood
    by_cases htr : pyTruthy v = true
    · simp only [goodStructured, htr, Bool.not_true, Bool.false_or] at hgood
      simp only [htr, if_true]
      cases v with
      | obj fs =>
        simp only [Bool.and_eq_true, Bool.or_eq_true] at hgood
        refine route5_ok O query fs hgood.1 ?_
        rcases hgood.2 with h | h
        · left
          simpa using h
        · right
          exact h
      | null => simp at hgood
      | bool b => simp at hgood
      | num n => simp at hgood
      | str s => simp at hgood
      | arr xs => simp at hgood
    · simp only [htr, if_false]
      exact ⟨_, rfl⟩

/-- C1 witness: a well-typed structured outcome at a concrete collaborator
yields an ok result. -/
theorem C1_no_uncaught_w :
    goodStructured (analyze_query O_good "k" "explain ai" "ctx") = true ∧
    ∃ r, handle_request O_good "explain ai" "ctx" "k" = .ok r :=
  ⟨rfl, C1_no_uncaught O_good "explain ai" "ctx" "k" rfl⟩

-- ==========================================================================
-- C2: summarize route (corrected)
-- ==========================================================================

/-- C2 counterexample: the claim takes the search topic to be "the text
after the marker", but the code splits on the marker and uses only
`parts[1]`, the segment before the *second* marker occurrence.  With the
generated syllabus `"Intro SEARCH_QUERY: B SEARCH_QUERY: C"`, the text
after the marker is `"B SEARCH_QUERY: C"` — a video search on that topic
returns one video under `O_c2` — yet `handle_request` searched for `"B"`
and returned no videos. -/
theorem C2_cex :
    handle_request O_c2 CMD_SUMMARIZE "ctx" "k" =
      .ok { explanation := .str "Intro", category := .str "Syllabus", book := .null,
            videos := [],
            articles := [⟨"📖 Learn \x27B\x27 on Khan Academy",
                          "https://www.khanacademy.org/search?page_search_query=B"⟩,
                         ⟨"🎓 Academic Papers: B",
                          "https://scholar.google.com/scholar?q=B"⟩] } ∧
    specTopicAfterMarker (clean_of "Intro SEARCH_QUERY: B SEARCH_QUERY: C") =
      "B SEARCH_QUERY: C" ∧
    cached_video_search O_c2 (.str "B SEARCH_QUERY: C") =
      [⟨"https://www.youtube.com/watch?v=vid1", "Title", "thumb"⟩] :=
  ⟨rfl, rfl, rfl⟩

/-- C2 (corrected): for every context and credentials (and a video provider
honouring the requested result cap), the summarize sentinel yields category
`"Syllabus"`, non-empty articles (fail-safe injected), at most 2 videos;
the explanation is the generated text before the first `SEARCH_QUERY:`
marker (bold variant normalized), stripped, or the entire generated text
when the marker is absent; both searches run on the topic given by the
split segment *between the first and second marker occurrences*
(`parts[1]`), stripped — not everything after the marker — or on
`"Computer Science Core"` when the marker is absent; the web search uses
category `"cs"` and the fail-safe injector is applied to its results. -/
theorem C2_summarize (O : Oracles) (context apiKey : String)
    (hcap : ∀ q n res, O.yt q n = .ok res → res.length ≤ n) :
    handle_request O CMD_SUMMARIZE context apiKey =
      .ok { explanation := .str (syllabus_summary (generate_text O apiKey (summarizePrompt context))),
            category := .str "Syllabus", book := .null,
            videos := cached_video_search O
              (.str (syllabus_topic (generate_text O apiKey (summarizePrompt context)))),
            articles := ensure_links
              (syllabus_topic (generate_text O apiKey (summarizePrompt context)))
              (search_web_core O.ddg
                (.str (syllabus_topic (generate_text O apiKey (summarizePrompt context)))) "cs") } ∧
    ensure_links (syllabus_topic (generate_text O apiKey (summarizePrompt context)))
      (search_web_core O.ddg
        (.str (syllabus_topic (generate_text O apiKey (summarizePrompt context)))) "cs") ≠ [] ∧
    (cached_video_search O
      (.str (syllabus_topic (generate_text O apiKey (summarizePrompt context))))).length ≤ 2 := by
  refine ⟨?_, ensure_links_ne_nil _ _, ?_⟩
  · unfold handle_request
    rw [if_pos rfl]
    rfl
  · unfold cached_video_search search_youtube
    cases hy : O.yt (.str (syllabus_topic (generate_text O apiKey (summarizePrompt context)))) 2 with
    | error e => simp
    | ok res => exact le_trans (ytBuild_length res) (hcap _ _ _ hy)

/-- C2 witness: instantiation at a collaborator with no marker in the
generated text and empty search results. -/
theorem C2_summarize_w :
    handle_request O_base CMD_SUMMARIZE "ctx" "k" =
      .ok { explanation := .str "generated text", category := .str "Syllabus",
            book := .null, videos := [],
            articles := ensure_links "Computer Science Core" [] } ∧
    (cached_video_search O_base
      (.str (syllabus_topic (generate_text O_base "k" (summarizePrompt "ctx"))))).length ≤ 2 := by
  have hcap : ∀ q n res, O_base.yt q n = .ok res → res.length ≤ n := by
    intro q n res h
    have h' : (Except.ok ([] : List YtRaw) : Except PyErr (List YtRaw)) = .ok res := h
    cases h'
    simp
  exact ⟨(C2_summarize O_base "ctx" "k" hcap).1, (C2_summarize O_base "ctx" "k" hcap).2.2⟩
